import Mathlib

/-!
Verification development for the kaleidoscope lighting-controller runtime.

This file gives a shallow embedding, in Lean, of the fixture/program model of
the controller (`src/runtime/fixture.rs`), its event filter
(`src/runtime/event.rs`), the priority arbitration of the older scheduler
variant (`src/runtime/runtime.rs`), and the parameter-cycle HTTP handler
(`src/http.rs`), together with theorems about the embedded operations.

Modelling conventions:
- Rust `&mut self` methods become state-passing functions returning the new
  state together with the call result.
- A Rust `Result` together with the possibility of a panic (from `assert!`,
  `expect`, index out of bounds, or remainder by zero) is modelled by
  `RustResult`, which has `ok`, `err` (with the error message) and `panicked`
  outcomes.
- Rust `f64` values (parameter bounds, tick timestamps) are modelled as `Rat`;
  the embedded code only compares and stores them.
- `u16`/`u8`/`usize` values are modelled as `Nat`; none of the embedded
  operations perform wrapping arithmetic on them.
- The embedded Lua interpreter held by a scripted program is modelled by the
  observable data the Rust side exchanges with it: the `_tick` entry point
  becomes an oracle function stored in the program state.
- `HashSet<Address>` fields are modelled as duplicate-free lists; `HashMap`
  arguments that the Rust code only iterates become association lists.
-/

namespace Kaleidoscope

/-- Result of a Rust call: `ok` and `err` mirror `Result`, while `panicked`
models a thread panic (failed `assert!`, `expect`/`unwrap` on the wrong
variant, out-of-bounds indexing, or remainder by zero). -/
inductive RustResult (α : Type) where
  | ok (value : α)
  | err (message : String)
  | panicked
  deriving Repr, DecidableEq

/-- Address of a channel (`alloy::Address`, a `u16`). -/
abbrev Address := Nat

/-- Output value of a channel (`alloy::OutputValue`, a `u16`). -/
abbrev OutputValue := Nat

/-- Modelled from the spec: the conventional constant `alloy::LOW` (the alloy
crate is an external dependency, not part of src/); the spec fixes `LOW = 0`. -/
def LOW : OutputValue := 0

/-- Modelled from the spec: the conventional constant `alloy::HIGH`; the spec
fixes `HIGH = 65535`. -/
def HIGH : OutputValue := 65535

/-- Modelled from the spec: `alloy::api::SetRequestTarget`; only the
`Address` variant is used by the embedded code. -/
inductive SetRequestTarget where
  | address (a : Address)
  deriving Repr, DecidableEq

/-- Modelled from the spec: `alloy::api::SetRequest`, a target plus an output
value posted upstream. -/
structure SetRequest where
  value : OutputValue
  target : SetRequestTarget
  deriving Repr, DecidableEq

/-- Modelled from the spec: `alloy::config::InputValue`, the tagged union of
input readings. -/
inductive InputValue where
  | binary (b : Bool)
  | temperature (t : Rat)
  | humidity (h : Rat)
  | pressure (p : Rat)
  | continuous (c : Rat)
  deriving Repr, DecidableEq

/-- Modelled from the spec: `alloy::event::ButtonEvent`. -/
inductive ButtonEvent where
  | up
  | down
  | clicked (durationSeconds : Rat)
  | longPress (seconds : Int)
  deriving Repr, DecidableEq

/-- Modelled from the spec: `alloy::event::EventKind`, either a value update
or a button gesture. -/
inductive EventKind where
  | update (newValue : InputValue)
  | button (e : ButtonEvent)
  deriving Repr, DecidableEq

/-- Modelled from the spec: `alloy::event::Event`; its `inner` field is a
`Result` holding either an event kind or an error string. -/
structure Event where
  inner : Except String EventKind
  deriving Repr

/-- Filter for button events (`src/runtime/event.rs`, `ButtonEventFilter`). -/
inductive ButtonEventFilter where
  | down
  | up
  | clicked
  | longPress
  deriving Repr, DecidableEq

/-- Event kind filter (`src/runtime/event.rs`, `EventFilterKind`). -/
inductive EventFilterKind where
  | update
  | button (filter : ButtonEventFilter)
  deriving Repr, DecidableEq

/-- One entry of an event filter (`src/runtime/event.rs`, `EventFilterEntry`). -/
inductive EventFilterEntry where
  | any
  | kind (kind : EventFilterKind)
  deriving Repr, DecidableEq

/-- Filter strategy (`src/runtime/event.rs`, `EventFilterStrategy`). -/
inductive EventFilterStrategy where
  | any
  | all
  deriving Repr, DecidableEq

/-- An event filter: a strategy plus an ordered list of entries
(`src/runtime/event.rs`, `EventFilter`). -/
structure EventFilter where
  strategy : EventFilterStrategy
  entries : List EventFilterEntry
  deriving Repr, DecidableEq

/-- Embedding of `EventFilter::match_inner` from `src/runtime/event.rs`. -/
def EventFilter.matchInner (entry : EventFilterEntry) (e : Event) : Bool :=
  match entry with
  | .any => true
  | .kind kind =>
    match e.inner with
    | .ok inner =>
      match kind with
      | .update =>
        match inner with
        | .update _ => true
        | _ => false
      | .button filter =>
        match inner with
        | .button b =>
          match filter with
          | .down => match b with | .down => true | _ => false
          | .up => match b with | .up => true | _ => false
          | .clicked => match b with | .clicked _ => true | _ => false
          | .longPress => match b with | .longPress _ => true | _ => false
        | _ => false
    | .error _ => false

/-- Embedding of `EventFilter::matches` from `src/runtime/event.rs`. -/
def EventFilter.matches (f : EventFilter) (e : Event) : Bool :=
  match f.strategy with
  | .any => f.entries.any (fun entry => EventFilter.matchInner entry e)
  | .all => f.entries.all (fun entry => EventFilter.matchInner entry e)

/-- One level of a discrete parameter (`src/runtime/fixture.rs`,
`FixtureProgramParameterDiscreteLevel`). -/
structure FixtureProgramParameterDiscreteLevel where
  name : String
  description : String
  deriving Repr, DecidableEq

/-- Typed payload of a parameter (`src/runtime/fixture.rs`,
`FixtureProgramParameterType`). -/
inductive FixtureProgramParameterType where
  | discrete (levels : List FixtureProgramParameterDiscreteLevel) (currentIndex : Nat)
  | continuous (lowerLimitIncl upperLimitIncl current : Rat)
  deriving Repr, DecidableEq

/-- Modelled from the spec: `alloy::program::ParameterSetRequest`, the JSON
body of a parameter-set request. -/
inductive ParameterSetRequest where
  | continuous (value : Rat)
  | discrete (level : String)
  deriving Repr, DecidableEq

/-- Embedding of `FixtureProgramParameterType::set` from
`src/runtime/fixture.rs`. The Rust method mutates `self` only on success; the
returned state is the (possibly unchanged) parameter after the call. -/
def FixtureProgramParameterType.set (p : FixtureProgramParameterType)
    (req : ParameterSetRequest) : FixtureProgramParameterType × RustResult Unit :=
  match p, req with
  | .discrete levels currentIndex, .discrete level =>
    match levels.findIdx? (fun l => l.name == level) with
    | some index => (.discrete levels index, .ok ())
    | none => (.discrete levels currentIndex, .err "level not found")
  | .discrete levels currentIndex, .continuous _ =>
    (.discrete levels currentIndex, .err "continuous value supplied to discrete parameter")
  | .continuous lower upper current, .continuous value =>
    if value ≤ upper ∧ lower ≤ value then (.continuous lower upper value, .ok ())
    else (.continuous lower upper current, .err "value is out of range")
  | .continuous lower upper current, .discrete _ =>
    (.continuous lower upper current, .err "discrete value supplied to continuous parameter")

/-- Embedding of `FixtureProgramParameterType::cycle` from
`src/runtime/fixture.rs`. For a discrete parameter the Rust code computes
`(current_index + 1) % levels.len()` and indexes `levels` at the result; with
an empty level list the remainder operation would panic, which the model
returns as `panicked` (the declaration path rejects empty level lists, so
this branch is unreachable for parameters built by the system). -/
def FixtureProgramParameterType.cycle (p : FixtureProgramParameterType) :
    FixtureProgramParameterType × RustResult String :=
  match p with
  | .continuous lower upper current =>
    (.continuous lower upper current, .err "continuous parameter can not be cycled")
  | .discrete levels i =>
    if h : 0 < levels.length then
      let j := (i + 1) % levels.length
      (.discrete levels j, .ok (levels.get ⟨j, Nat.mod_lt _ h⟩).name)
    else (.discrete levels i, .panicked)

/-- A named parameter of a program (`src/runtime/fixture.rs`,
`FixtureProgramParameter`). -/
structure FixtureProgramParameter where
  name : String
  value : FixtureProgramParameterType
  deriving Repr, DecidableEq

/-- Embedding of `FixtureProgramParameter::set` (delegates to the typed
payload). -/
def FixtureProgramParameter.set (p : FixtureProgramParameter)
    (req : ParameterSetRequest) : FixtureProgramParameter × RustResult Unit :=
  let (v, r) := p.value.set req
  ({ p with value := v }, r)

/-- Embedding of `FixtureProgramParameter::cycle` (delegates to the typed
payload). -/
def FixtureProgramParameter.cycle (p : FixtureProgramParameter) :
    FixtureProgramParameter × RustResult String :=
  let (v, r) := p.value.cycle
  ({ p with value := v }, r)

/-- The per-tick inputs handed to a running program
(`src/runtime/fixture.rs` consumes `TickState` from the runtime module): a
monotonic timestamp and the local wall-clock time. The timestamp is modelled
as seconds (`Rat`); the local time as seconds since midnight, which is all
`LuaFixtureProgram::run` derives from it. -/
structure TickState where
  timestamp : Rat
  localTimeSeconds : Nat

/-- Number of ticks a slow-mode program skips between runs
(`SLOW_MODE_NUM_SKIP_TICKS` in `src/runtime/fixture.rs`). -/
def SLOW_MODE_NUM_SKIP_TICKS : Nat := 999

/-- Embedding of `BundledConstantFixtureProgram` from
`src/runtime/fixture.rs`: the state behind the OFF and ON builtin programs. -/
structure BundledConstantFixtureProgram where
  addresses : List Address
  outputValue : OutputValue
  reset : Bool
  deriving Repr, DecidableEq

/-- Embedding of `BundledConstantFixtureProgram::new_fixed_value`. -/
def BundledConstantFixtureProgram.new_fixed_value (addresses : List Address)
    (output : OutputValue) : BundledConstantFixtureProgram :=
  { addresses := addresses, outputValue := output, reset := true }

/-- Embedding of `BundledConstantFixtureProgram::enable`. -/
def BundledConstantFixtureProgram.enable (p : BundledConstantFixtureProgram) :
    BundledConstantFixtureProgram :=
  { p with reset := true }

/-- Embedding of `BundledConstantFixtureProgram::run`: when the reset flag is
set, clear it and append one set-request per owned address carrying the fixed
output value; otherwise append nothing. -/
def BundledConstantFixtureProgram.run (p : BundledConstantFixtureProgram)
    (_state : TickState) :
    BundledConstantFixtureProgram × RustResult (List SetRequest) :=
  if p.reset then
    ({ p with reset := false },
     .ok (p.addresses.map (fun addr => SetRequest.mk p.outputValue (.address addr))))
  else (p, .ok [])

/-- Modelled from the spec: `alloy::map_to_value` (the alloy crate is an
external dependency, not part of src/). The spec gives
`round(((x - lo)/(hi - lo)) * 65535)` clamped to `[0, 65535]`. -/
def map_to_value (range : Rat × Rat) (x : Rat) : OutputValue :=
  let scaled := round (((x - range.1) / (range.2 - range.1)) * 65535)
  (max 0 (min 65535 scaled)).toNat

/-- Embedding of `BundledManualFixtureProgram` from `src/runtime/fixture.rs`:
the state behind the MANUAL builtin program. -/
structure BundledManualFixtureProgram where
  outputs : List Address
  parameters : List FixtureProgramParameter
  dirty_parameters : Bool
  reset : Bool
  deriving Repr, DecidableEq

/-- Stable insertion into an address-sorted alias list: an alias with an
equal address goes after the existing entries, as a stable sort keeps it. -/
def insertByAddress (x : String × Address) :
    List (String × Address) → List (String × Address)
  | [] => [x]
  | y :: ys => if x.2 < y.2 then x :: y :: ys else y :: insertByAddress x ys

/-- Stable sort of an alias list by address, modelling the stable
`sort_by_key` of the Rust standard library. -/
def sortByAddress : List (String × Address) → List (String × Address)
  | [] => []
  | x :: xs => insertByAddress x (sortByAddress xs)

/-- Embedding of `BundledManualFixtureProgram::new`: sort the alias map by
address (a stable sort, matching `sort_by_key`), keep the addresses as the
output list, and derive one continuous `[0, 1]` parameter with default `0`
per alias. -/
def BundledManualFixtureProgram.new (aliases : List (String × Address)) :
    BundledManualFixtureProgram :=
  let tmp := sortByAddress aliases
  { outputs := tmp.map (fun x => x.2),
    parameters := tmp.map (fun x =>
      { name := x.1,
        value := FixtureProgramParameterType.continuous 0 1 0 }),
    dirty_parameters := true,
    reset := true }

/-- Embedding of `BundledManualFixtureProgram::enable`. -/
def BundledManualFixtureProgram.enable (p : BundledManualFixtureProgram) :
    BundledManualFixtureProgram :=
  { p with reset := true }

/-- Embedding of `BundledManualFixtureProgram::run`: do nothing unless reset
or dirty; otherwise clear both flags and emit one set-request per output,
scaling the matching continuous parameter into the output range. A discrete
parameter in the list would make the Rust code panic. -/
def BundledManualFixtureProgram.run (p : BundledManualFixtureProgram)
    (_state : TickState) :
    BundledManualFixtureProgram × RustResult (List SetRequest) :=
  if !p.reset && !p.dirty_parameters then (p, .ok [])
  else
    let cleared := { p with reset := false, dirty_parameters := false }
    if (p.outputs.zip p.parameters).any (fun x =>
        match x.2.value with
        | .discrete _ _ => true
        | .continuous _ _ _ => false) then
      (cleared, .panicked)
    else
      (cleared,
       .ok ((p.outputs.zip p.parameters).filterMap (fun x =>
         match x.2.value with
         | .continuous _ _ current =>
           some (SetRequest.mk (map_to_value (0, 1) current) (.address x.1))
         | .discrete _ _ => none)))

/-- Embedding of `LuaFixtureProgram` from `src/runtime/fixture.rs`. The `lua`
field of the Rust struct (the embedded interpreter holding the loaded user
script) is modelled by `tickFn`, the observable behaviour of the Lua `_tick`
global: given the tick time in seconds it either returns the produced
address-to-value map (as a list of pairs) or fails. -/
structure LuaFixtureProgram where
  parameters : List FixtureProgramParameter
  slow_mode : Bool
  skip_ticks_until_next_run : Nat
  dirty_parameters : Bool
  tickFn : Rat → RustResult (List (Address × OutputValue))
  epoch : Rat

/-- Embedding of `LuaFixtureProgram::enable`. -/
def LuaFixtureProgram.enable (p : LuaFixtureProgram) : LuaFixtureProgram :=
  { p with skip_ticks_until_next_run := 0 }

/-- Embedding of `LuaFixtureProgram::run` from `src/runtime/fixture.rs`
(lines 797-834). If the skip counter is zero or the parameters are dirty:
inject the parameter table (clearing the dirty flag), call `_tick` with the
seconds since the program epoch, turn the returned map into set-requests, and
if slow mode is on reset the skip counter; a `_tick` failure is returned as
an error (the dirty flag stays cleared, the skip counter stays untouched).
Otherwise decrement the skip counter and emit nothing. -/
def LuaFixtureProgram.run (p : LuaFixtureProgram) (state : TickState) :
    LuaFixtureProgram × RustResult (List SetRequest) :=
  if p.skip_ticks_until_next_run = 0 ∨ p.dirty_parameters = true then
    let p1 := { p with dirty_parameters := false }
    match p1.tickFn (state.timestamp - p1.epoch) with
    | .err e => (p1, .err e)
    | .panicked => (p1, .panicked)
    | .ok output_values =>
      let requests := output_values.map (fun av => SetRequest.mk av.2 (.address av.1))
      let p2 :=
        if p1.slow_mode then { p1 with skip_ticks_until_next_run := SLOW_MODE_NUM_SKIP_TICKS }
        else p1
      (p2, .ok requests)
  else
    ({ p with skip_ticks_until_next_run := p.skip_ticks_until_next_run - 1 }, .ok [])

/-- Embedding of `FixtureProgramType` from `src/runtime/fixture.rs`. -/
inductive FixtureProgramType where
  | bundledConstant (p : BundledConstantFixtureProgram)
  | bundledManual (p : BundledManualFixtureProgram)
  | external
  | lua (p : LuaFixtureProgram)

/-- Embedding of a named program of a fixture (`src/runtime/fixture.rs`,
`FixtureProgram`). -/
structure FixtureProgram where
  name : String
  inner : FixtureProgramType

/-- Embedding of `FixtureProgram::enable`: dispatch to the variant
(EXTERNAL is a no-op). -/
def FixtureProgram.enable (p : FixtureProgram) : FixtureProgram :=
  { p with inner :=
    match p.inner with
    | .bundledConstant q => .bundledConstant q.enable
    | .bundledManual q => .bundledManual q.enable
    | .external => .external
    | .lua q => .lua q.enable }

/-- Embedding of `FixtureProgram::run`: dispatch to the variant (EXTERNAL is
a no-op that emits nothing). -/
def FixtureProgram.run (p : FixtureProgram) (state : TickState) :
    FixtureProgram × RustResult (List SetRequest) :=
  match p.inner with
  | .bundledConstant q =>
    let (q2, r) := q.run state
    ({ p with inner := .bundledConstant q2 }, r)
  | .bundledManual q =>
    let (q2, r) := q.run state
    ({ p with inner := .bundledManual q2 }, r)
  | .external => (p, .ok [])
  | .lua q =>
    let (q2, r) := q.run state
    ({ p with inner := .lua q2 }, r)

/-- Embedding of `FixtureProgram::get_parameter_mut` from
`src/runtime/fixture.rs` (lines 434-446): for a scripted or MANUAL program,
mark the parameters dirty and look the parameter up by name; builtin constant
and EXTERNAL programs have no parameters. The returned program carries the
dirty flag; the returned parameter is the one the Rust caller receives a
mutable reference to. -/
def FixtureProgram.get_parameter_mut (p : FixtureProgram) (paramName : String) :
    FixtureProgram × Option FixtureProgramParameter :=
  match p.inner with
  | .bundledConstant _ => (p, none)
  | .external => (p, none)
  | .lua q =>
    ({ p with inner := .lua { q with dirty_parameters := true } },
     q.parameters.find? (fun param => param.name == paramName))
  | .bundledManual q =>
    ({ p with inner := .bundledManual { q with dirty_parameters := true } },
     q.parameters.find? (fun param => param.name == paramName))

/-- Result of running the fixture-script `setup()` function
(`src/runtime/fixture.rs`, `FixtureSetupValues`). The Lua execution itself is
outside the embedding; `Fixture.new` consumes these values. -/
structure FixtureSetupValues where
  name : String
  program_sources : List (String × String)
  outputs : List Address
  disable_builtin_programs : Bool
  disable_manual_program : Bool

/-- Embedding of `Fixture` from `src/runtime/fixture.rs`. The `source_path`
field (a `PathBuf` only used for diagnostics) is omitted. -/
structure Fixture where
  name : String
  addresses : List Address
  programs : List FixtureProgram
  current_program_index : Nat

/-- Helper for `Fixture::new`: append the loaded scripted programs to the
builtin program list, failing on a name that duplicates an earlier program
(the `bail!("duplicate/conflicting program name: ...")` loop). -/
def addLuaPrograms (acc : List FixtureProgram) :
    List (String × LuaFixtureProgram) → Except String (List FixtureProgram)
  | [] => .ok acc
  | (progName, p) :: rest =>
    if acc.any (fun q => q.name == progName) then
      .error ("duplicate/conflicting program name: " ++ progName)
    else
      addLuaPrograms (acc ++ [{ name := progName, inner := .lua p }]) rest

/-- Final step of `Fixture::new`: check the assembled program list and build
the fixture record with the active index starting at zero. -/
def finishFixture (nm : String) (outs : List Address)
    (res : Except String (List FixtureProgram)) : Except String Fixture :=
  match res with
  | .error e => .error e
  | .ok programs =>
    if programs.isEmpty then .error "no programs defined and builtin programs disabled"
    else
      .ok { name := nm,
            addresses := outs,
            programs := programs,
            current_program_index := 0 }

/-- Embedding of the program-list assembly of `Fixture::new` from
`src/runtime/fixture.rs` (lines 85-148). The Lua setup run and the loading of
each program script are outside the embedding; their results arrive as
`setupValues` and `luaPrograms` (the latter in declaration order, as produced
by the load loop). `outputAliases` is the alias-to-address map restricted to
the declared outputs. The builtins OFF and ON are added unless disabled,
EXTERNAL always, MANUAL unless disabled, then the scripted programs with a
duplicate-name check; the list must be non-empty; the active index starts at
zero. -/
def Fixture.new (setupValues : FixtureSetupValues)
    (luaPrograms : List (String × LuaFixtureProgram))
    (outputAliases : List (String × Address)) : Except String Fixture :=
  let base : List FixtureProgram :=
    (if setupValues.disable_builtin_programs then [] else
      [{ name := "OFF",
         inner := .bundledConstant
           (BundledConstantFixtureProgram.new_fixed_value setupValues.outputs LOW) },
       { name := "ON",
         inner := .bundledConstant
           (BundledConstantFixtureProgram.new_fixed_value setupValues.outputs HIGH) }])
    ++ [{ name := "EXTERNAL", inner := .external }]
    ++ (if setupValues.disable_manual_program then [] else
      [{ name := "MANUAL",
         inner := .bundledManual (BundledManualFixtureProgram.new outputAliases) }])
  finishFixture setupValues.name setupValues.outputs (addLuaPrograms base luaPrograms)

/-- Embedding of `Fixture::switch_program` from `src/runtime/fixture.rs`
(lines 243-253). The guard is the off-by-one `ensure!(to <= len)` of the
source; the following `get_mut(index).unwrap()` panics when the index equals
the length, and otherwise enables the program at the new index. -/
def Fixture.switch_program (f : Fixture) (toIndex : Nat) : RustResult Fixture :=
  if toIndex ≤ f.programs.length then
    match f.programs[toIndex]? with
    | some p =>
      .ok { f with current_program_index := toIndex,
                   programs := f.programs.set toIndex p.enable }
    | none => .panicked
  else .err "invalid index"

/-- Embedding of `Fixture::set_active_program`: find the program by name
(error "not found" when absent), then switch to it; a failing switch is an
`expect`, hence a panic. -/
def Fixture.set_active_program (f : Fixture) (toName : String) : RustResult Fixture :=
  match f.programs.findIdx? (fun p => p.name == toName) with
  | none => .err "not found"
  | some pos =>
    match f.switch_program pos with
    | .ok f2 => .ok f2
    | .err _ => .panicked
    | .panicked => .panicked

/-- The names skipped by `Fixture::cycle_active_program`: MANUAL and
EXTERNAL. -/
def skippedName (s : String) : Bool :=
  s == "MANUAL" || s == "EXTERNAL"

/-- Bounded embedding of the skip loop inside `Fixture::cycle_active_program`:
starting from `idx`, step `(idx + 1) % len` while the program at the index is
named MANUAL or EXTERNAL. The Rust loop is unbounded; one fuel unit is spent
per inspected index, and since the walk is cyclic with period `len`, fuel
`len` finds the answer exactly when the Rust loop terminates — `none` means
the Rust loop never exits. -/
def findNextIndex (programs : List FixtureProgram) (idx : Nat) :
    Nat → Option Nat
  | 0 => none
  | fuel + 1 =>
    match programs[idx]? with
    | none => none
    | some p =>
      if skippedName p.name then
        findNextIndex programs ((idx + 1) % programs.length) fuel
      else some idx

/-- Embedding of `Fixture::cycle_active_program` from `src/runtime/fixture.rs`
(lines 226-241): error when the program list is empty; otherwise walk from
`(current + 1) % len` skipping MANUAL and EXTERNAL, switch to the found
program (a failing switch is an `expect`, hence a panic) and return its name.
The outer `Option` is `none` exactly when the source loop diverges. -/
def Fixture.cycle_active_program (f : Fixture) :
    Option (RustResult (String × Fixture)) :=
  if f.programs.isEmpty then some (.err "no programs available")
  else
    match findNextIndex f.programs
        ((f.current_program_index + 1) % f.programs.length) f.programs.length with
    | none => none
    | some nextIndex =>
      match f.switch_program nextIndex with
      | .ok f2 =>
        match f2.programs[nextIndex]? with
        | some p => some (.ok (p.name, f2))
        | none => some .panicked
      | .err _ => some .panicked
      | .panicked => some .panicked

/-- Embedding of `Fixture::run_current_program`: run the program at the
current index (the `unwrap` on a missing index is a panic) and append its
set-requests. -/
def Fixture.run_current_program (f : Fixture) (state : TickState) :
    Fixture × RustResult (List SetRequest) :=
  match f.programs[f.current_program_index]? with
  | none => (f, .panicked)
  | some p =>
    let (p2, r) := p.run state
    ({ f with programs := f.programs.set f.current_program_index p2 }, r)

/-- A control-surface or scheduler operation on a fixture, as reachable after
construction: switching the active program by name, cycling it, or running
the current program for a tick. -/
inductive FixtureOp where
  | setActive (name : String)
  | cycleActive
  | runCurrent (state : TickState)

/-- Apply one operation to a fixture, keeping the post-call state: a failed
name lookup leaves the fixture unchanged, and a diverging or panicking call
never returns a new state. -/
def Fixture.applyOp (f : Fixture) : FixtureOp → Fixture
  | .setActive progName =>
    match f.set_active_program progName with
    | .ok f2 => f2
    | .err _ => f
    | .panicked => f
  | .cycleActive =>
    match f.cycle_active_program with
    | some (.ok (_, f2)) => f2
    | _ => f
  | .runCurrent state => (f.run_current_program state).1

/-- The fixture invariant of the spec: the current program index is in range
and at least one program exists. -/
def fixtureInvariant (f : Fixture) : Prop :=
  f.current_program_index < f.programs.length ∧ 1 ≤ f.programs.length

/-- Embedding of `TickValue` from `src/runtime/runtime.rs` (the older
multi-program arbitration scheduler): one output address with a 20-slot
array of values produced this tick, indexed by priority minus one, and the
highest priority that stored a value so far. The `programs_for_this_value`
back-references only drive program selection and are not needed here. -/
structure TickValue where
  address : Address
  produced_values : List (Option OutputValue)
  highest_priority_set_value : Option Nat
  deriving Repr, DecidableEq

/-- Embedding of `TickValue::set_value_for_priority` from
`src/runtime/runtime.rs` (lines 113-126): the two `assert!` calls demand
`priority ≤ 20` and `priority > 0` (failing is a panic); then slot
`priority - 1` keeps its first value and the highest set priority is raised
to at least `priority`. -/
def TickValue.set_value_for_priority (tv : TickValue) (priority : Nat)
    (value : OutputValue) : RustResult TickValue :=
  if priority ≤ 20 then
    if 0 < priority then
      let index := priority - 1
      if index < tv.produced_values.length then
        let old := tv.produced_values.getD index none
        let merged := match old with
          | some v0 => some v0
          | none => some value
        .ok { tv with
              produced_values := tv.produced_values.set index merged,
              highest_priority_set_value :=
                some (max ((tv.highest_priority_set_value).getD 0) priority) }
      else .panicked
    else .panicked
  else .panicked

/-- Embedding of `Runtime::apply_tick_generated_outputs` from
`src/runtime/runtime.rs` (lines 57-69): for each produced address/value pair,
locate the tick value for that address (the source does a binary search over
the address-sorted vector and `expect`s a hit, so a missing address is a
panic) and store the value at the running program priority; a panic inside
`set_value_for_priority` aborts the whole application. -/
def apply_tick_generated_outputs (tickValues : List TickValue)
    (values : List (Address × OutputValue)) (priority : Nat) :
    RustResult (List TickValue) :=
  values.foldl
    (fun acc av =>
      match acc with
      | .ok tvs =>
        match tvs.findIdx? (fun tv => tv.address == av.1) with
        | none => .panicked
        | some i =>
          match tvs[i]? with
          | none => .panicked
          | some tv =>
            match tv.set_value_for_priority priority av.2 with
            | .ok tv2 => .ok (tvs.set i tv2)
            | .err _ => .panicked
            | .panicked => .panicked
      | .err e => .err e
      | .panicked => .panicked)
    (.ok tickValues)

/-- The priority a scripted program starts with in `Program::setup`
(`src/runtime/program.rs` line 688: `let mut priority: u8 = 0;`), kept when
the script never calls `set_priority`. -/
def defaultPriority : Nat := 0

/-- Embedding of the `set_priority` setup callable of `Program::setup`
(`src/runtime/program.rs` lines 782-789): reject priorities above 20,
otherwise record the value. -/
def set_priority_in_setup (prio : Nat) : Except String Nat :=
  if prio > 20 then .error "priority must be <= 20" else .ok prio

/-- Modelled from the spec: the fixture-scheduler `Runtime` that backs the
control surface (`src/http.rs` locks it and resolves fixtures by name; the
struct itself is not part of src/). Only its fixture collection matters
here. -/
structure ControlRuntime where
  fixtures : List Fixture

/-- Modelled from the spec: `Runtime::get_fixture_mut` as used by the warp
handlers in `src/http.rs` — resolve a fixture by name. -/
def ControlRuntime.get_fixture_mut (r : ControlRuntime) (fixtureName : String) :
    Option Fixture :=
  r.fixtures.find? (fun f => f.name == fixtureName)

/-- Embedding of `Fixture::get_program_mut` from `src/runtime/fixture.rs`:
resolve a program of a fixture by name. -/
def Fixture.get_program_mut (f : Fixture) (programName : String) :
    Option FixtureProgram :=
  f.programs.find? (fun p => p.name == programName)

/-- Outcome of a warp handler in `src/http.rs`: a JSON reply, a bare status
reply, or a rejection. `warp::reject::not_found()` is rendered by warp as a
404 response. -/
inductive HandlerOutcome where
  | okJson (body : String)
  | status (code : Nat)
  | rejectNotFound
  | panicked
  deriving Repr, DecidableEq

/-- The HTTP status code a `HandlerOutcome` is rendered as: a JSON reply is
200, a rejection by `warp::reject::not_found()` is 404. -/
def HandlerOutcome.statusCode : HandlerOutcome → Nat
  | .okJson _ => 200
  | .status code => code
  | .rejectNotFound => 404
  | .panicked => 500

/-- Embedding of the handler
`post_fixtures_fixture_programs_program_parameters_parameter_cycle` from
`src/http.rs` (lines 437-464): resolve fixture, program and parameter (each
miss is a not-found rejection), call `parameter.cycle()`, reply with the new
level name as JSON on success and with a not-found rejection on error. -/
def post_parameters_parameter_cycle (r : ControlRuntime)
    (fixtureName programName parameterName : String) : HandlerOutcome :=
  match r.get_fixture_mut fixtureName with
  | none => .rejectNotFound
  | some fixture =>
    match fixture.get_program_mut programName with
    | none => .rejectNotFound
    | some program =>
      match program.get_parameter_mut parameterName with
      | (_, none) => .rejectNotFound
      | (_, some parameter) =>
        match (parameter.cycle).2 with
        | .ok newLevel => .okJson newLevel
        | .err _ => .rejectNotFound
        | .panicked => .panicked

/-- Whether the program at an index exists and is not skipped by the cycle
loop; the offset form used by the lemmas about `findNextIndex`. -/
def eligAt (programs : List FixtureProgram) (i : Nat) : Bool :=
  match programs[i]? with
  | some p => !(skippedName p.name)
  | none => false

/-- The names returned by `n` successive `cycle_active_program` calls,
threading the fixture state; stops early on an error, a panic or a diverging
call. -/
def cycleNameTrace : Fixture → Nat → List String
  | _, 0 => []
  | f, n + 1 =>
    match f.cycle_active_program with
    | some (.ok (progName, f2)) => progName :: cycleNameTrace f2 n
    | _ => []

/-- A scripted program with no parameters whose `_tick` produces nothing;
used as the concrete scripted-program state in example fixtures. -/
def exampleScriptedProgram : LuaFixtureProgram :=
  { parameters := [],
    slow_mode := false,
    skip_ticks_until_next_run := 0,
    dirty_parameters := false,
    tickFn := fun _ => .ok [],
    epoch := 0 }

/-- The program list of the cycle end-to-end scenario:
OFF, ON, EXTERNAL, MANUAL, SCR1, SCR2, active index 0. -/
def exampleCycleFixture : Fixture :=
  { name := "cyc",
    addresses := [],
    programs :=
      [{ name := "OFF",
         inner := .bundledConstant { addresses := [], outputValue := LOW, reset := true } },
       { name := "ON",
         inner := .bundledConstant { addresses := [], outputValue := HIGH, reset := true } },
       { name := "EXTERNAL", inner := .external },
       { name := "MANUAL",
         inner := .bundledManual
           { outputs := [], parameters := [], dirty_parameters := true, reset := true } },
       { name := "SCR1", inner := .lua exampleScriptedProgram },
       { name := "SCR2", inner := .lua exampleScriptedProgram }],
    current_program_index := 0 }

/-- Three discrete levels L0, L1, L2 for the cycle round-trip scenario. -/
def exampleDiscreteLevels : List FixtureProgramParameterDiscreteLevel :=
  [{ name := "L0", description := "" },
   { name := "L1", description := "" },
   { name := "L2", description := "" }]

/-- Setup values of a fixture script that disables the OFF/ON builtins and
the MANUAL program and declares no scripted programs. -/
def externalOnlySetupValues : FixtureSetupValues :=
  { name := "ext-only",
    program_sources := [],
    outputs := [],
    disable_builtin_programs := true,
    disable_manual_program := true }

/-- Setup values of a fixture script that keeps every builtin and declares
no scripted programs. -/
def defaultSetupValues : FixtureSetupValues :=
  { name := "fix",
    program_sources := [],
    outputs := [5, 6],
    disable_builtin_programs := false,
    disable_manual_program := false }

/-- The fixture `Fixture.new` builds from `defaultSetupValues` with no
scripted programs and no output aliases. -/
def defaultFixture : Fixture :=
  { name := "fix",
    addresses := [5, 6],
    programs :=
      [{ name := "OFF",
         inner := .bundledConstant { addresses := [5, 6], outputValue := LOW, reset := true } },
       { name := "ON",
         inner := .bundledConstant { addresses := [5, 6], outputValue := HIGH, reset := true } },
       { name := "EXTERNAL", inner := .external },
       { name := "MANUAL",
         inner := .bundledManual
           { outputs := [], parameters := [], dirty_parameters := true, reset := true } }],
    current_program_index := 0 }

/-- A tick value for address 1 with all 20 priority slots empty, as built at
runtime construction. -/
def exampleTickValue : TickValue :=
  { address := 1,
    produced_values := List.replicate 20 none,
    highest_priority_set_value := none }

/-- A continuous parameter named "speed" with range `[0, 1]` and current
value 0. -/
def exampleContinuousParameter : FixtureProgramParameter :=
  { name := "speed", value := .continuous 0 1 0 }

/-- A scripted program owning only the continuous parameter "speed". -/
def exampleHttpProgram : LuaFixtureProgram :=
  { parameters := [exampleContinuousParameter],
    slow_mode := false,
    skip_ticks_until_next_run := 0,
    dirty_parameters := false,
    tickFn := fun _ => .ok [],
    epoch := 0 }

/-- A control runtime holding one fixture "fix" with one scripted program
"prog" whose only parameter is the continuous "speed". -/
def exampleControlRuntime : ControlRuntime :=
  { fixtures :=
      [{ name := "fix",
         addresses := [],
         programs := [{ name := "prog", inner := .lua exampleHttpProgram }],
         current_program_index := 0 }] }

/-- A scripted slow-mode program mid-skip: skip counter 5, parameters clean. -/
def exampleMidSkipProgram : LuaFixtureProgram :=
  { parameters := [{ name := "speed", value := .continuous 0 1 0 }],
    slow_mode := true,
    skip_ticks_until_next_run := 5,
    dirty_parameters := false,
    tickFn := fun _ => .ok [(3, 7)],
    epoch := 0 }

/-- A scripted slow-mode program due to run: skip counter 0, parameters
clean. -/
def exampleDueProgram : LuaFixtureProgram :=
  { parameters := [{ name := "speed", value := .continuous 0 1 0 }],
    slow_mode := true,
    skip_ticks_until_next_run := 0,
    dirty_parameters := false,
    tickFn := fun _ => .ok [(3, 7)],
    epoch := 0 }

/-- An event filter that accepts anything: strategy Any with one Any entry. -/
def exampleAnyFilter : EventFilter :=
  { strategy := .any, entries := [.any] }

/-- An event carrying an error payload. -/
def exampleErrorEvent : Event :=
  { inner := .error "sensor failure" }

/-- C2, amended: for every continuous parameter, `set(v)` succeeds and
assigns `current := v` when `lower_incl ≤ v ≤ upper_incl`, and otherwise
fails with the error "value is out of range" (the source message; the claim
quotes it as "value out of range") leaving the stored current value
unchanged. -/
theorem claim_c2_continuous_set_range (lower upper current v : Rat) :
    ((lower ≤ v ∧ v ≤ upper) →
      FixtureProgramParameterType.set (.continuous lower upper current) (.continuous v) =
        (.continuous lower upper v, .ok ()))
    ∧ (¬(lower ≤ v ∧ v ≤ upper) →
      FixtureProgramParameterType.set (.continuous lower upper current) (.continuous v) =
        (.continuous lower upper current, .err "value is out of range")) := by
  constructor
  · intro h
    simp only [FixtureProgramParameterType.set]
    rw [if_pos ⟨h.2, h.1⟩]
  · intro h
    have h2 : ¬(v ≤ upper ∧ lower ≤ v) := fun hc => h ⟨hc.2, hc.1⟩
    simp only [FixtureProgramParameterType.set]
    rw [if_neg h2]

/-- C2, counterexample to the claim as stated: setting 2 on a `[0, 1]`
continuous parameter fails with the message "value is out of range", which is
not the message "value out of range" the claim specifies. -/
theorem claim_c2_counterexample :
    (FixtureProgramParameterType.set (.continuous 0 1 0) (.continuous 2)).2 =
      .err "value is out of range"
    ∧ (RustResult.err "value is out of range" : RustResult Unit) ≠
        RustResult.err "value out of range" := by
  constructor
  · decide
  · decide

/-- Witness for C2: the amended theorem applied to the `[0, 1]` parameter at
the in-range value 1/2 and the out-of-range value 2. -/
theorem claim_c2_witness :
    (((0 : Rat) ≤ (1 / 2 : Rat) ∧ (1 / 2 : Rat) ≤ 1) ∧
      FixtureProgramParameterType.set (.continuous 0 1 0) (.continuous (1 / 2)) =
        (.continuous 0 1 (1 / 2), .ok ()))
    ∧ (¬((0 : Rat) ≤ (2 : Rat) ∧ (2 : Rat) ≤ 1) ∧
      FixtureProgramParameterType.set (.continuous 0 1 0) (.continuous 2) =
        (.continuous 0 1 0, .err "value is out of range")) :=
  ⟨⟨by norm_num, (claim_c2_continuous_set_range 0 1 0 (1 / 2)).1 (by norm_num)⟩,
   ⟨by norm_num, (claim_c2_continuous_set_range 0 1 0 2).2 (by norm_num)⟩⟩

/-- C3: cycling a discrete parameter never fails, advances the index to
`(current_index + 1) mod len(levels)` and returns the name of the new level;
with three levels L0, L1, L2 starting at index 0, three cycles return L1,
L2, L0 and land back at index 0. -/
theorem claim_c3_discrete_cycle :
    (∀ (levels : List FixtureProgramParameterDiscreteLevel) (i : Nat)
      (h : 0 < levels.length),
      FixtureProgramParameterType.cycle (.discrete levels i) =
        (.discrete levels ((i + 1) % levels.length),
         .ok (levels.get ⟨(i + 1) % levels.length, Nat.mod_lt _ h⟩).name))
    ∧ FixtureProgramParameterType.cycle (.discrete exampleDiscreteLevels 0) =
        (.discrete exampleDiscreteLevels 1, .ok "L1")
    ∧ FixtureProgramParameterType.cycle (.discrete exampleDiscreteLevels 1) =
        (.discrete exampleDiscreteLevels 2, .ok "L2")
    ∧ FixtureProgramParameterType.cycle (.discrete exampleDiscreteLevels 2) =
        (.discrete exampleDiscreteLevels 0, .ok "L0") := by
  refine ⟨?_, by decide, by decide, by decide⟩
  intro levels i h
  simp only [FixtureProgramParameterType.cycle]
  rw [dif_pos h]

/-- Witness for C3: the cycle theorem applied to the three-level parameter at
index 0. -/
theorem claim_c3_witness :
    0 < exampleDiscreteLevels.length ∧
    FixtureProgramParameterType.cycle (.discrete exampleDiscreteLevels 0) =
      (.discrete exampleDiscreteLevels ((0 + 1) % exampleDiscreteLevels.length),
       .ok (exampleDiscreteLevels.get
          ⟨(0 + 1) % exampleDiscreteLevels.length,
           Nat.mod_lt _ (by decide)⟩).name) :=
  ⟨by decide, claim_c3_discrete_cycle.1 exampleDiscreteLevels 0 (by decide)⟩

/-- C8: a filter matches an event exactly when, under strategy Any, some
entry matches it and, under strategy All, every entry matches it; an Any
entry matches every event; and an event with an error payload is matched by
no Kind entry. -/
theorem claim_c8_event_filter_matches (f : EventFilter) (e : Event) :
    (f.matches e = true ↔
      match f.strategy with
      | .any => ∃ entry ∈ f.entries, EventFilter.matchInner entry e = true
      | .all => ∀ entry ∈ f.entries, EventFilter.matchInner entry e = true)
    ∧ EventFilter.matchInner .any e = true
    ∧ (∀ (errText : String) (k : EventFilterKind),
        e.inner = Except.error errText → EventFilter.matchInner (.kind k) e = false) := by
  refine ⟨?_, rfl, ?_⟩
  · cases hs : f.strategy with
    | any =>
      simp only [EventFilter.matches, hs, List.any_eq_true]
    | all =>
      simp only [EventFilter.matches, hs, List.all_eq_true]
  · intro errText k hinner
    simp only [EventFilter.matchInner, hinner]

/-- Witness for C8: the filter `{strategy: Any, entries: [Any]}` against an
error-payload event, with a concrete Kind entry for the error clause. -/
theorem claim_c8_witness :
    (exampleAnyFilter.matches exampleErrorEvent = true ↔
      match exampleAnyFilter.strategy with
      | .any => ∃ entry ∈ exampleAnyFilter.entries,
          EventFilter.matchInner entry exampleErrorEvent = true
      | .all => ∀ entry ∈ exampleAnyFilter.entries,
          EventFilter.matchInner entry exampleErrorEvent = true)
    ∧ EventFilter.matchInner .any exampleErrorEvent = true
    ∧ (exampleErrorEvent.inner = Except.error "sensor failure" →
        EventFilter.matchInner (.kind .update) exampleErrorEvent = false) :=
  ⟨(claim_c8_event_filter_matches exampleAnyFilter exampleErrorEvent).1,
   (claim_c8_event_filter_matches exampleAnyFilter exampleErrorEvent).2.1,
   fun h => (claim_c8_event_filter_matches exampleAnyFilter exampleErrorEvent).2.2
     "sensor failure" .update h⟩

/-- C6: an OFF program (a bundled constant program with value LOW), once
enabled, emits on its next run exactly one LOW set-request per owned
address, and every later run emits nothing until it is enabled again. -/
theorem claim_c6_off_emits_once :
    (∀ (addrs : List Address) (r : Bool) (st : TickState),
      (BundledConstantFixtureProgram.mk addrs LOW r).enable.run st =
        ({ addresses := addrs, outputValue := LOW, reset := false },
         .ok (addrs.map (fun a => SetRequest.mk LOW (.address a)))))
    ∧ (∀ (addrs : List Address) (st : TickState), addrs.Nodup →
        ∀ out, ((BundledConstantFixtureProgram.mk addrs LOW true).run st).2 = .ok out →
          out.length = addrs.length ∧
          (∀ reqItem ∈ out, reqItem.value = LOW) ∧
          (∀ a ∈ addrs, out.count (SetRequest.mk LOW (.address a)) = 1))
    ∧ (∀ (p : BundledConstantFixtureProgram) (st : TickState),
        p.reset = false → p.run st = (p, .ok [])) := by
  refine ⟨fun addrs r st => rfl, ?_, ?_⟩
  · intro addrs st hnd out hout
    have hmap : out = addrs.map (fun a => SetRequest.mk LOW (.address a)) := by
      simp only [BundledConstantFixtureProgram.run, if_pos rfl] at hout
      exact ((RustResult.ok.injEq _ _).mp hout).symm
    subst hmap
    refine ⟨by simp, ?_, ?_⟩
    · intro reqItem hmem
      obtain ⟨a, _, rfl⟩ := List.mem_map.mp hmem
      rfl
    · intro a hmem
      have hinj : Function.Injective (fun a => SetRequest.mk LOW (.address a)) := by
        intro x y hxy
        cases hxy
        rfl
      have hnd2 : (addrs.map (fun a => SetRequest.mk LOW (.address a))).Nodup :=
        hnd.map hinj
      have hmem2 : SetRequest.mk LOW (.address a) ∈
          addrs.map (fun a => SetRequest.mk LOW (.address a)) :=
        List.mem_map.mpr ⟨a, hmem, rfl⟩
      exact List.count_eq_one_of_mem hnd2 hmem2
  · intro p st h
    simp only [BundledConstantFixtureProgram.run, h]
    rfl

/-- Witness for C6: the OFF program over addresses 10 and 11, enabled, run
twice. -/
theorem claim_c6_witness :
    ([10, 11] : List Address).Nodup
    ∧ (BundledConstantFixtureProgram.mk [10, 11] LOW true).enable.run ⟨0, 0⟩ =
        ({ addresses := [10, 11], outputValue := LOW, reset := false },
         .ok [SetRequest.mk LOW (.address 10), SetRequest.mk LOW (.address 11)])
    ∧ ([SetRequest.mk LOW (.address 10), SetRequest.mk LOW (.address 11)].length =
        ([10, 11] : List Address).length)
    ∧ (BundledConstantFixtureProgram.mk [10, 11] LOW false).run ⟨0, 0⟩ =
        (BundledConstantFixtureProgram.mk [10, 11] LOW false, .ok []) := by
  refine ⟨by decide, ?_, ?_, ?_⟩
  · exact claim_c6_off_emits_once.1 [10, 11] true ⟨0, 0⟩
  · have := (claim_c6_off_emits_once.2.1 [10, 11] ⟨0, 0⟩ (by decide)
      [SetRequest.mk LOW (.address 10), SetRequest.mk LOW (.address 11)] (by decide)).1
    exact this
  · exact claim_c6_off_emits_once.2.2 (BundledConstantFixtureProgram.mk [10, 11] LOW false)
      ⟨0, 0⟩ rfl

/-- C9: the claim is wrong about the code — a program that never calls
`set_priority` keeps the default priority 0 (`Program::setup`), and
`TickValue::set_value_for_priority` asserts `priority > 0`, so applying any
produced output of such a program panics. The setup callable itself rejects
only priorities above 20. -/
theorem claim_c9_default_priority_panics :
    defaultPriority = 0
    ∧ (∀ (tv : TickValue) (v : OutputValue),
        tv.set_value_for_priority 0 v = .panicked)
    ∧ set_priority_in_setup 0 = .ok 0
    ∧ set_priority_in_setup 21 = .error "priority must be <= 20"
    ∧ apply_tick_generated_outputs [exampleTickValue] [(1, 5)] defaultPriority =
        .panicked := by
  refine ⟨rfl, ?_, rfl, rfl, by decide⟩
  intro tv v
  simp [TickValue.set_value_for_priority]

/-- C1: a scripted program tick calls `_tick` exactly when the skip counter
is 0 or the parameters are dirty; when it does not, the counter is
decremented and nothing is emitted; when it does and the host returns a map,
the map entries become set-requests and, under slow mode, the skip counter is
reset to 999; and `get_parameter_mut` marks the parameters dirty, so a
mutation makes the run condition hold on the next tick even mid-skip. -/
theorem claim_c1_slow_mode_tick_gating (p : LuaFixtureProgram) (st : TickState) :
    (¬(p.skip_ticks_until_next_run = 0 ∨ p.dirty_parameters = true) →
      p.run st =
        ({ p with skip_ticks_until_next_run := p.skip_ticks_until_next_run - 1 }, .ok []))
    ∧ (∀ outs, (p.skip_ticks_until_next_run = 0 ∨ p.dirty_parameters = true) →
        p.tickFn (st.timestamp - p.epoch) = .ok outs →
        p.run st =
          ({ p with dirty_parameters := false,
                    skip_ticks_until_next_run :=
                      if p.slow_mode then SLOW_MODE_NUM_SKIP_TICKS
                      else p.skip_ticks_until_next_run },
           .ok (outs.map (fun av => SetRequest.mk av.2 (.address av.1)))))
    ∧ (∀ (fp : FixtureProgram) (q : LuaFixtureProgram) (paramName : String),
        fp.inner = .lua q →
        ∃ q2, ((fp.get_parameter_mut paramName).1).inner = .lua q2
          ∧ q2.dirty_parameters = true
          ∧ (q2.skip_ticks_until_next_run = 0 ∨ q2.dirty_parameters = true)) := by
  refine ⟨?_, ?_, ?_⟩
  · intro h
    simp only [LuaFixtureProgram.run, if_neg h]
  · intro outs hcond htick
    simp only [LuaFixtureProgram.run, if_pos hcond]
    show (match p.tickFn (st.timestamp - p.epoch) with
      | .err e => _
      | .panicked => _
      | .ok output_values => _) = _
    rw [htick]
    cases hsm : p.slow_mode <;> simp [hsm]
  · intro fp q paramName h
    obtain ⟨fpName, inner⟩ := fp
    cases inner <;> simp_all [FixtureProgram.get_parameter_mut]

/-- Witness for C1: a mid-skip slow-mode program (counter 5, clean
parameters) does not tick and decrements; a due slow-mode program ticks,
emits its map and resets the counter to 999; wrapping the mid-skip program
in a fixture program and mutating a parameter sets the dirty flag. -/
theorem claim_c1_witness :
    (¬(exampleMidSkipProgram.skip_ticks_until_next_run = 0 ∨
        exampleMidSkipProgram.dirty_parameters = true))
    ∧ exampleMidSkipProgram.run ⟨1, 0⟩ =
        ({ exampleMidSkipProgram with
            skip_ticks_until_next_run :=
              exampleMidSkipProgram.skip_ticks_until_next_run - 1 }, .ok [])
    ∧ exampleDueProgram.run ⟨1, 0⟩ =
        ({ exampleDueProgram with
            dirty_parameters := false,
            skip_ticks_until_next_run :=
              if exampleDueProgram.slow_mode then SLOW_MODE_NUM_SKIP_TICKS
              else exampleDueProgram.skip_ticks_until_next_run },
         .ok ([((3 : Address), (7 : OutputValue))].map
            (fun av => SetRequest.mk av.2 (.address av.1))))
    ∧ (∃ q2,
        ((FixtureProgram.mk "scripted" (.lua exampleMidSkipProgram)).get_parameter_mut
            "speed").1.inner = .lua q2
          ∧ q2.dirty_parameters = true
          ∧ (q2.skip_ticks_until_next_run = 0 ∨ q2.dirty_parameters = true)) := by
  refine ⟨by decide, ?_, ?_, ?_⟩
  · exact (claim_c1_slow_mode_tick_gating exampleMidSkipProgram ⟨1, 0⟩).1 (by decide)
  · exact (claim_c1_slow_mode_tick_gating exampleDueProgram ⟨1, 0⟩).2.1
      [((3 : Address), (7 : OutputValue))] (Or.inl rfl) rfl
  · exact (claim_c1_slow_mode_tick_gating exampleMidSkipProgram ⟨1, 0⟩).2.2
      (FixtureProgram.mk "scripted" (.lua exampleMidSkipProgram))
      exampleMidSkipProgram "speed" rfl

/-- C10, amended: for a cycle request naming an existing fixture, program and
parameter, a discrete parameter yields a 200 response carrying the new level
name as JSON, while a continuous parameter makes the handler reject the
request with `warp::reject::not_found()`, rendered as status 404 (the claim
states 400). -/
theorem claim_c10_parameter_cycle_handler
    (r : ControlRuntime) (fixtureName programName parameterName : String)
    (fixture : Fixture) (program : FixtureProgram) (param : FixtureProgramParameter)
    (hf : r.get_fixture_mut fixtureName = some fixture)
    (hp : fixture.get_program_mut programName = some program)
    (hpar : (program.get_parameter_mut parameterName).2 = some param) :
    (∀ levels i, param.value = .discrete levels i → 0 < levels.length →
      ∃ levelName,
        (param.cycle).2 = .ok levelName ∧
        post_parameters_parameter_cycle r fixtureName programName parameterName =
          .okJson levelName ∧
        (HandlerOutcome.okJson levelName).statusCode = 200)
    ∧ (∀ lower upper current, param.value = .continuous lower upper current →
        post_parameters_parameter_cycle r fixtureName programName parameterName =
          .rejectNotFound ∧
        HandlerOutcome.rejectNotFound.statusCode = 404) := by
  have hhandler : ∀ outcome,
      (match (param.cycle).2 with
        | .ok newLevel => HandlerOutcome.okJson newLevel
        | .err _ => HandlerOutcome.rejectNotFound
        | .panicked => HandlerOutcome.panicked) = outcome →
      post_parameters_parameter_cycle r fixtureName programName parameterName = outcome := by
    intro outcome hmatch
    simp only [post_parameters_parameter_cycle, hf, hp]
    cases hget : program.get_parameter_mut parameterName with
    | mk fst snd =>
      rw [hget] at hpar
      simp only at hpar
      subst hpar
      exact hmatch
  constructor
  · intro levels i hval hlen
    have hc : (param.cycle).2 =
        .ok (levels.get ⟨(i + 1) % levels.length, Nat.mod_lt _ hlen⟩).name := by
      simp only [FixtureProgramParameter.cycle, hval, FixtureProgramParameterType.cycle]
      rw [dif_pos hlen]
    exact ⟨_, hc, hhandler _ (by rw [hc]), rfl⟩
  · intro lower upper current hval
    have hc : (param.cycle).2 = .err "continuous parameter can not be cycled" := by
      simp only [FixtureProgramParameter.cycle, hval, FixtureProgramParameterType.cycle]
    exact ⟨hhandler _ (by rw [hc]), rfl⟩

/-- C10, counterexample to the claim as stated: cycling the continuous
parameter "speed" of the existing fixture "fix" and program "prog" produces
a not-found rejection, rendered with status 404, not the claimed 400. -/
theorem claim_c10_counterexample :
    exampleControlRuntime.get_fixture_mut "fix" ≠ none
    ∧ (∀ fixture, exampleControlRuntime.get_fixture_mut "fix" = some fixture →
        fixture.get_program_mut "prog" ≠ none)
    ∧ post_parameters_parameter_cycle exampleControlRuntime "fix" "prog" "speed" =
        .rejectNotFound
    ∧ (post_parameters_parameter_cycle exampleControlRuntime "fix" "prog"
        "speed").statusCode = 404
    ∧ (404 : Nat) ≠ 400 := by
  refine ⟨?_, ?_, rfl, rfl, by decide⟩
  · intro h
    simp [ControlRuntime.get_fixture_mut, exampleControlRuntime, List.find?] at h
  · intro fixture hfix h
    simp only [ControlRuntime.get_fixture_mut, exampleControlRuntime, List.find?] at hfix
    cases hfix
    simp [Fixture.get_program_mut, List.find?] at h

/-- Witness for C10: the amended theorem applied to the concrete runtime
with the continuous parameter "speed". -/
theorem claim_c10_witness :
    (exampleControlRuntime.get_fixture_mut "fix" = some (exampleControlRuntime.fixtures.get ⟨0, by decide⟩))
    ∧ (post_parameters_parameter_cycle exampleControlRuntime "fix" "prog" "speed" =
        .rejectNotFound ∧ HandlerOutcome.rejectNotFound.statusCode = 404) := by
  refine ⟨rfl, ?_⟩
  exact (claim_c10_parameter_cycle_handler exampleControlRuntime "fix" "prog" "speed"
      (exampleControlRuntime.fixtures.get ⟨0, by decide⟩)
      ((exampleControlRuntime.fixtures.get ⟨0, by decide⟩).programs.get ⟨0, by decide⟩)
      exampleContinuousParameter rfl rfl rfl).2 0 1 0 rfl

/-- C5: the claim is wrong about the code — with the builtins and MANUAL
disabled and no scripted programs, `Fixture::new` still succeeds, because
EXTERNAL is always added and the only load-time check is that the program
list is non-empty; the resulting fixture has EXTERNAL as its only program,
and on it the skip loop of `cycle_active_program` never finds a program to
land on, for any amount of fuel: the source loop never terminates. -/
theorem claim_c5_external_only_accepted :
    ∃ f, Fixture.new externalOnlySetupValues [] [] = .ok f
      ∧ f.programs.map FixtureProgram.name = ["EXTERNAL"]
      ∧ (∀ fuel start, findNextIndex f.programs start fuel = none)
      ∧ f.cycle_active_program = none := by
  refine ⟨{ name := "ext-only", addresses := [],
            programs := [{ name := "EXTERNAL", inner := .external }],
            current_program_index := 0 }, rfl, rfl, ?_, rfl⟩
  intro fuel
  induction fuel with
  | zero => intro start; rfl
  | succ n ih =>
    intro start
    cases start with
    | zero =>
      show findNextIndex _ ((0 + 1) % 1) n = none
      exact ih ((0 + 1) % 1)
    | succ m => rfl

/-- A successful `switch_program` lands on the requested in-range index and
keeps the program count. -/
theorem switch_program_ok {f f2 : Fixture} {toIndex : Nat}
    (h : f.switch_program toIndex = .ok f2) :
    f2.current_program_index = toIndex
      ∧ f2.programs.length = f.programs.length
      ∧ toIndex < f.programs.length := by
  unfold Fixture.switch_program at h
  by_cases hle : toIndex ≤ f.programs.length
  · rw [if_pos hle] at h
    cases hget : f.programs[toIndex]? with
    | none => rw [hget] at h; cases h
    | some p =>
      rw [hget] at h
      cases h
      have hlt : toIndex < f.programs.length := by
        by_contra hcon
        rw [List.getElem?_eq_none (Nat.le_of_not_lt hcon)] at hget
        cases hget
      exact ⟨rfl, by simp, hlt⟩
  · rw [if_neg hle] at h
    cases h

/-- Running the current program never moves the active index and never
changes the program count. -/
theorem run_current_program_preserves (f : Fixture) (st : TickState) :
    (f.run_current_program st).1.current_program_index = f.current_program_index
      ∧ (f.run_current_program st).1.programs.length = f.programs.length := by
  unfold Fixture.run_current_program
  cases hget : f.programs[f.current_program_index]? with
  | none => exact ⟨rfl, rfl⟩
  | some p =>
    cases hrun : p.run st with
    | mk p2 r => exact ⟨rfl, by simp⟩

/-- A successful `set_active_program` went through a successful
`switch_program`. -/
theorem set_active_program_ok {f f2 : Fixture} {progName : String}
    (h : f.set_active_program progName = .ok f2) :
    ∃ pos, f.switch_program pos = .ok f2 := by
  unfold Fixture.set_active_program at h
  split at h
  · cases h
  · split at h
    · next f3 hsw => cases h; exact ⟨_, hsw⟩
    · cases h
    · cases h

/-- A successful `cycle_active_program` went through a successful
`switch_program` to the reported fixture. -/
theorem cycle_active_program_ok {f f2 : Fixture} {s : String}
    (h : f.cycle_active_program = some (.ok (s, f2))) :
    ∃ j, f.switch_program j = .ok f2 := by
  unfold Fixture.cycle_active_program at h
  split at h
  · simp at h
  · split at h
    · cases h
    · next nextIndex hfind =>
      split at h
      · next f3 hsw =>
        split at h
        · next p hget =>
          simp only [Option.some.injEq, RustResult.ok.injEq, Prod.mk.injEq] at h
          exact ⟨nextIndex, h.2 ▸ hsw⟩
        · simp at h
      · simp at h
      · simp at h

/-- Every reachable fixture operation preserves the index invariant. -/
theorem applyOp_preserves_invariant {f : Fixture} (hInv : fixtureInvariant f)
    (op : FixtureOp) : fixtureInvariant (f.applyOp op) := by
  cases op with
  | setActive progName =>
    show fixtureInvariant (match f.set_active_program progName with
      | .ok f2 => f2
      | .err _ => f
      | .panicked => f)
    split
    · next f2 hs =>
      obtain ⟨pos, hsw⟩ := set_active_program_ok hs
      obtain ⟨h1, h2, h3⟩ := switch_program_ok hsw
      exact ⟨by rw [h1, h2]; exact h3, by rw [h2]; exact hInv.2⟩
    · exact hInv
    · exact hInv
  | cycleActive =>
    show fixtureInvariant (match f.cycle_active_program with
      | some (.ok (_, f2)) => f2
      | _ => f)
    split
    · next s f2 hc =>
      obtain ⟨j, hsw⟩ := cycle_active_program_ok hc
      obtain ⟨h1, h2, h3⟩ := switch_program_ok hsw
      exact ⟨by rw [h1, h2]; exact h3, by rw [h2]; exact hInv.2⟩
    · exact hInv
  | runCurrent st =>
    show fixtureInvariant (f.run_current_program st).1
    obtain ⟨h1, h2⟩ := run_current_program_preserves f st
    exact ⟨by rw [h1, h2]; exact hInv.1, by rw [h2]; exact hInv.2⟩

/-- A fixture accepted by the final check of `Fixture::new` satisfies the
index invariant and starts at index 0. -/
theorem finishFixture_ok {nm : String} {outs : List Address}
    {res : Except String (List FixtureProgram)} {f : Fixture}
    (h : finishFixture nm outs res = .ok f) :
    fixtureInvariant f ∧ f.current_program_index = 0 := by
  unfold finishFixture at h
  split at h
  · cases h
  · next programs =>
    split at h
    · cases h
    · next hemp =>
      cases h
      have hlen : 0 < programs.length := by
        cases hp : programs with
        | nil => rw [hp] at hemp; exact absurd rfl hemp
        | cons a l => simp [hp]
      exact ⟨⟨hlen, hlen⟩, rfl⟩

/-- A fixture built by `Fixture::new` satisfies the index invariant and
starts at index 0. -/
theorem new_ok_invariant {sv : FixtureSetupValues}
    {lp : List (String × LuaFixtureProgram)} {oa : List (String × Address)}
    {f : Fixture} (h : Fixture.new sv lp oa = .ok f) :
    fixtureInvariant f ∧ f.current_program_index = 0 := by
  unfold Fixture.new at h
  exact finishFixture_ok h

/-- The index invariant is preserved by any sequence of reachable fixture
operations. -/
theorem foldl_applyOp_invariant {f : Fixture} (hInv : fixtureInvariant f) :
    ∀ ops : List FixtureOp, fixtureInvariant (ops.foldl Fixture.applyOp f)
  | [] => hInv
  | op :: rest => foldl_applyOp_invariant (applyOp_preserves_invariant hInv op) rest

/-- C7: after a successful `Fixture::new`, any sequence of
`set_active_program`, `cycle_active_program` and `run_current_program`
operations keeps `current_program_index` a valid index into a non-empty
program list, so the index lookup in `run_current_program` always finds a
program. -/
theorem claim_c7_index_invariant
    (sv : FixtureSetupValues) (lp : List (String × LuaFixtureProgram))
    (oa : List (String × Address)) (f : Fixture)
    (hnew : Fixture.new sv lp oa = .ok f) (ops : List FixtureOp) :
    fixtureInvariant (ops.foldl Fixture.applyOp f)
      ∧ ∃ p, (ops.foldl Fixture.applyOp f).programs[(ops.foldl
          Fixture.applyOp f).current_program_index]? = some p := by
  have hInv := foldl_applyOp_invariant (new_ok_invariant hnew).1 ops
  exact ⟨hInv, ⟨_, List.getElem?_eq_getElem hInv.1⟩⟩

/-- Witness for C7: the default fixture (OFF, ON, EXTERNAL, MANUAL) after a
cycle, a named switch and a tick. -/
theorem claim_c7_witness :
    Fixture.new defaultSetupValues [] [] = .ok defaultFixture
      ∧ (fixtureInvariant ([FixtureOp.cycleActive, FixtureOp.setActive "ON",
            FixtureOp.runCurrent ⟨0, 0⟩].foldl Fixture.applyOp defaultFixture)
        ∧ ∃ p, ([FixtureOp.cycleActive, FixtureOp.setActive "ON",
            FixtureOp.runCurrent ⟨0, 0⟩].foldl Fixture.applyOp
              defaultFixture).programs[([FixtureOp.cycleActive,
            FixtureOp.setActive "ON", FixtureOp.runCurrent ⟨0, 0⟩].foldl
              Fixture.applyOp defaultFixture).current_program_index]? = some p) :=
  ⟨rfl, claim_c7_index_invariant defaultSetupValues [] [] defaultFixture rfl
    [FixtureOp.cycleActive, FixtureOp.setActive "ON", FixtureOp.runCurrent ⟨0, 0⟩]⟩

/-- An index is eligible exactly when it holds a program that is neither
MANUAL nor EXTERNAL. -/
theorem eligAt_true_iff {programs : List FixtureProgram} {i : Nat} :
    eligAt programs i = true ↔
      ∃ p, programs[i]? = some p ∧ skippedName p.name = false := by
  unfold eligAt
  cases h : programs[i]? with
  | none => simp
  | some p => simp

/-- An in-range index that is not eligible holds a MANUAL or EXTERNAL
program. -/
theorem eligAt_false {programs : List FixtureProgram} {i : Nat}
    (hi : i < programs.length) (h : eligAt programs i = false) :
    ∃ p, programs[i]? = some p ∧ skippedName p.name = true := by
  unfold eligAt at h
  rw [List.getElem?_eq_getElem hi] at h
  exact ⟨_, List.getElem?_eq_getElem hi, by simpa using h⟩

/-- The skip loop, given enough fuel, stops at the first eligible index of
the cyclic walk: if the first `d` offsets from `start` are ineligible and
offset `d` is eligible, the loop returns the index at offset `d`. -/
theorem findNextIndex_spec (programs : List FixtureProgram) :
    ∀ (d start fuel : Nat), start < programs.length →
      (∀ k, k < d → eligAt programs ((start + k) % programs.length) = false) →
      eligAt programs ((start + d) % programs.length) = true →
      d < fuel →
      findNextIndex programs start fuel = some ((start + d) % programs.length) := by
  intro d
  induction d with
  | zero =>
    intro start fuel hstart hskip helig hfuel
    obtain ⟨m, rfl⟩ : ∃ m, fuel = m + 1 := ⟨fuel - 1, by omega⟩
    have hmod : (start + 0) % programs.length = start := by
      rw [Nat.add_zero, Nat.mod_eq_of_lt hstart]
    rw [hmod] at helig ⊢
    obtain ⟨p, hget, hskipped⟩ := eligAt_true_iff.mp helig
    simp [findNextIndex, hget, hskipped]
  | succ d ih =>
    intro start fuel hstart hskip helig hfuel
    obtain ⟨m, rfl⟩ : ∃ m, fuel = m + 1 := ⟨fuel - 1, by omega⟩
    have hlen : 0 < programs.length := by omega
    have h0 := hskip 0 (Nat.succ_pos d)
    have hmod : (start + 0) % programs.length = start := by
      rw [Nat.add_zero, Nat.mod_eq_of_lt hstart]
    rw [hmod] at h0
    obtain ⟨p, hget, hskipped⟩ := eligAt_false hstart h0
    have htrans : ∀ k, ((start + 1) % programs.length + k) % programs.length =
        (start + (k + 1)) % programs.length := by
      intro k
      rw [Nat.mod_add_mod]
      congr 1
      omega
    have hstart2 : (start + 1) % programs.length < programs.length :=
      Nat.mod_lt _ hlen
    have hskip2 : ∀ k, k < d →
        eligAt programs (((start + 1) % programs.length + k) % programs.length) =
          false := by
      intro k hk
      rw [htrans k]
      exact hskip (k + 1) (by omega)
    have helig2 : eligAt programs
        (((start + 1) % programs.length + d) % programs.length) = true := by
      rw [htrans d]
      exact helig
    have hrec := ih ((start + 1) % programs.length) m hstart2 hskip2 helig2 (by omega)
    rw [htrans d] at hrec
    simp [findNextIndex, hget, hskipped, hrec]

/-- From any in-range start, some offset below the list length reaches any
given eligible index of the cyclic walk. -/
theorem exists_eligible_offset (programs : List FixtureProgram)
    (start : Nat) (hstart : start < programs.length)
    (i : Nat) (hi : i < programs.length) (helig : eligAt programs i = true) :
    ∃ k, k < programs.length ∧
      eligAt programs ((start + k) % programs.length) = true := by
  have hlen : 0 < programs.length := by omega
  refine ⟨(i + programs.length - start) % programs.length, Nat.mod_lt _ hlen, ?_⟩
  have hx : (start + (i + programs.length - start) % programs.length) %
      programs.length = i := by
    rw [Nat.add_mod_mod]
    have h2 : start + (i + programs.length - start) = i + programs.length := by omega
    rw [h2, Nat.add_mod_right, Nat.mod_eq_of_lt hi]
  rw [hx]
  exact helig

/-- C4: on a fixture with at least one program not named MANUAL or EXTERNAL,
`cycle_active_program` walks forward from the next index modulo the program
count, lands on the first program that is neither MANUAL nor EXTERNAL
(skipping only such programs), enables it, sets the index to it and returns
its name; on the program list OFF, ON, EXTERNAL, MANUAL, SCR1, SCR2 starting
at index 0 the returned names are ON, SCR1, SCR2, OFF, ON. -/
theorem claim_c4_cycle_skips_manual_external :
    (∀ f : Fixture,
      (∃ p ∈ f.programs, skippedName p.name = false) →
      ∃ j p, f.programs[j]? = some p ∧ skippedName p.name = false ∧
        f.cycle_active_program =
          some (.ok (p.name,
            { f with current_program_index := j,
                     programs := f.programs.set j p.enable })) ∧
        ∃ d, j = (f.current_program_index + 1 + d) % f.programs.length ∧
          ∀ k, k < d → ∃ q,
            f.programs[(f.current_program_index + 1 + k) % f.programs.length]? =
              some q ∧ skippedName q.name = true)
    ∧ cycleNameTrace exampleCycleFixture 5 = ["ON", "SCR1", "SCR2", "OFF", "ON"] := by
  constructor
  · intro f hex
    obtain ⟨p0, hp0mem, hp0⟩ := hex
    have hlen : 0 < f.programs.length :=
      List.length_pos.mpr (List.ne_nil_of_mem hp0mem)
    obtain ⟨i, hi, hgi⟩ := List.mem_iff_getElem.mp hp0mem
    have heligi : eligAt f.programs i = true :=
      eligAt_true_iff.mpr ⟨p0, by rw [List.getElem?_eq_getElem hi, hgi], hp0⟩
    have hstart : (f.current_program_index + 1) % f.programs.length <
        f.programs.length := Nat.mod_lt _ hlen
    obtain ⟨k0, hk0len, hk0⟩ := exists_eligible_offset f.programs
      ((f.current_program_index + 1) % f.programs.length) hstart i hi heligi
    have hPex : ∃ k, eligAt f.programs
        (((f.current_program_index + 1) % f.programs.length + k) %
          f.programs.length) = true := ⟨k0, hk0⟩
    have hPd := Nat.find_spec hPex
    have hdlt : Nat.find hPex < f.programs.length :=
      lt_of_le_of_lt (Nat.find_min' hPex hk0) hk0len
    have hmin : ∀ k, k < Nat.find hPex →
        eligAt f.programs
          (((f.current_program_index + 1) % f.programs.length + k) %
            f.programs.length) = false := by
      intro k hk
      simpa using Nat.find_min hPex hk
    have hfind := findNextIndex_spec f.programs (Nat.find hPex)
      ((f.current_program_index + 1) % f.programs.length) f.programs.length
      hstart hmin hPd hdlt
    have hjlt : ((f.current_program_index + 1) % f.programs.length +
        Nat.find hPex) % f.programs.length < f.programs.length :=
      Nat.mod_lt _ hlen
    obtain ⟨p, hget, hskipfalse⟩ := eligAt_true_iff.mp hPd
    refine ⟨_, p, hget, hskipfalse, ?_, ⟨Nat.find hPex, ?_, ?_⟩⟩
    · unfold Fixture.cycle_active_program
      have hne : ¬(f.programs.isEmpty = true) := by
        rw [List.isEmpty_iff_length_eq_zero]
        omega
      rw [if_neg hne]
      simp only [hfind]
      unfold Fixture.switch_program
      rw [if_pos (le_of_lt hjlt)]
      simp only [hget]
      have hset : ((f.programs.set (((f.current_program_index + 1) %
          f.programs.length + Nat.find hPex) % f.programs.length)
            p.enable))[(((f.current_program_index + 1) %
          f.programs.length + Nat.find hPex) % f.programs.length)]? =
          some p.enable :=
        List.getElem?_set_eq_of_lt p.enable hjlt
      simp only [hset]
      rfl
    · rw [Nat.mod_add_mod]
    · intro k hk
      have hfalse := hmin k hk
      have hidxlt : ((f.current_program_index + 1) % f.programs.length + k) %
          f.programs.length < f.programs.length := Nat.mod_lt _ hlen
      obtain ⟨q, hq, hqs⟩ := eligAt_false hidxlt hfalse
      rw [Nat.mod_add_mod] at hq
      exact ⟨q, hq, hqs⟩
  · rfl

/-- Witness for C4: the cycle theorem applied to the OFF, ON, EXTERNAL,
MANUAL, SCR1, SCR2 fixture, whose OFF program is not skipped. -/
theorem claim_c4_witness :
    (∃ p ∈ exampleCycleFixture.programs, skippedName p.name = false) ∧
    (∃ j p, exampleCycleFixture.programs[j]? = some p ∧
      skippedName p.name = false ∧
      exampleCycleFixture.cycle_active_program =
        some (.ok (p.name,
          { exampleCycleFixture with
              current_program_index := j,
              programs := exampleCycleFixture.programs.set j p.enable })) ∧
      ∃ d, j = (exampleCycleFixture.current_program_index + 1 + d) %
          exampleCycleFixture.programs.length ∧
        ∀ k, k < d → ∃ q,
          exampleCycleFixture.programs[(exampleCycleFixture.current_program_index +
            1 + k) % exampleCycleFixture.programs.length]? = some q ∧
          skippedName q.name = true) := by
  have hmem : (⟨"OFF", .bundledConstant
      { addresses := [], outputValue := LOW, reset := true }⟩ : FixtureProgram) ∈
      exampleCycleFixture.programs := by
    show _ ∈ _ :: _
    exact List.mem_cons_self _ _
  have hex : ∃ p ∈ exampleCycleFixture.programs, skippedName p.name = false :=
    ⟨_, hmem, rfl⟩
  exact ⟨hex, claim_c4_cycle_skips_manual_external.1 exampleCycleFixture hex⟩

end Kaleidoscope
